import Mathlib

/-!
Shallow embedding of the node-couchdb client (lib/node-couchdb.js): the
JavaScript values the client handles, the request dispatcher with its
conditional cache, and the public method wrappers, together with theorems
about them.
-/

/-- Model of a JavaScript JSON value: the bodies and query-parameter values
the client handles (the transport is configured with json mode, so bodies
are parsed JSON or absent). -/
inductive Json : Type where
  | null : Json
  | bool : Bool → Json
  | num : Int → Json
  | str : String → Json
  | arr : List Json → Json
  | obj : List (String × Json) → Json
deriving Repr

/-- JavaScript truthiness of a defined JSON value. -/
def Json.truthy : Json → Bool
  | .null => false
  | .bool b => b
  | .num n => n != 0
  | .str s => s != ""
  | .arr _ => true
  | .obj _ => true

/-- JavaScript truthiness of a possibly-undefined value (none stands for
undefined). -/
def jsTruthy : Option Json → Bool
  | none => false
  | some v => v.truthy

/-- Escaping of one character as JSON.stringify performs it for the
characters the client's data contains (quote and backslash; control
characters do not occur in any input of this development). -/
def jsEscapeChar (c : Char) : String :=
  if c = '"' then "\\\""
  else if c = '\\' then "\\\\"
  else String.singleton c

/-- Escaping of a string as JSON.stringify performs it. -/
def jsEscape (s : String) : String :=
  String.join (s.toList.map jsEscapeChar)

mutual

/-- Model of JSON.stringify on JSON values, as the source applies it to
query-parameter values and to the cache-key query object. -/
def jsonStringify : Json → String
  | .null => "null"
  | .bool true => "true"
  | .bool false => "false"
  | .num n => toString n
  | .str s => "\"" ++ jsEscape s ++ "\""
  | .arr xs => "[" ++ jsonStringifyList xs ++ "]"
  | .obj fs => "\x7b" ++ jsonStringifyFields fs ++ "\x7d"

/-- Comma-joined stringification of an array's elements. -/
def jsonStringifyList : List Json → String
  | [] => ""
  | [x] => jsonStringify x
  | x :: y :: xs => jsonStringify x ++ "," ++ jsonStringifyList (y :: xs)

/-- Comma-joined stringification of an object's fields, in insertion
order as JavaScript enumerates them. -/
def jsonStringifyFields : List (String × Json) → String
  | [] => ""
  | [(k, v)] => "\"" ++ jsEscape k ++ "\":" ++ jsonStringify v
  | (k, v) :: f :: fs =>
      "\"" ++ jsEscape k ++ "\":" ++ jsonStringify v ++ "," ++ jsonStringifyFields (f :: fs)

end

/-- JavaScript property access on a value modelled as an ordered field list
(none stands for undefined, also when the value is not an object). -/
def jsGet (v : Json) (key : String) : Option Json :=
  match v with
  | .obj fs => fs.lookup key
  | _ => none

/-- Lookup of a response header by its (lowercased, as node delivers them)
name; none stands for an absent header. -/
def headerGet (headers : List (String × String)) (name : String) : Option String :=
  headers.lookup name

/-- Request options as built by the client's methods and consumed by the
dispatcher: the fields of the option objects appearing in the source. The
query field mirrors the property the cache-key helper reads; no method of
the client ever sets it (they all set qs), so it defaults to undefined. -/
structure RequestOpts where
  method : Option String := none
  url : String
  qs : List (String × Json) := []
  headers : List (String × String) := []
  body : Option Json := none
  query : Option Json := none
deriving Repr

/-- Record stored by the cache collaborator: the source writes
set(cacheKey, \x7bbody, etag: res.headers.etag\x7d), so either field can
be undefined. -/
structure CacheEntry where
  etag : Option String := none
  body : Option Json := none
deriving Repr

/-- Digest input built by the source's cache-key helper (named with a
leading underscore there): the url joined with the JSON-stringified query
property (requestOpts.query or an empty object when that property is
undefined). The source then applies the fixed md5 hex digest to this
string; the embedding works with the digest input itself as the key, since
the digest is a function of it and equal inputs give equal digests. -/
def getCacheKey (requestOpts : RequestOpts) : String :=
  let stringifiedQuery := jsonStringify (requestOpts.query.getD (Json.obj []))
  requestOpts.url ++ "?" ++ stringifiedQuery

mutual

/-- Coercion of a JSON element to string inside an array, as the js
Array.prototype.toString performs it (null rendered empty). -/
def jsToStringItem : Json → String
  | .null => ""
  | .bool true => "true"
  | .bool false => "false"
  | .num n => toString n
  | .str s => s
  | .obj _ => "[object Object]"
  | .arr xs => jsToStringList xs

/-- Comma-joined rendering of an array's elements, as js String([...]). -/
def jsToStringList : List Json → String
  | [] => ""
  | [x] => jsToStringItem x
  | x :: y :: xs => jsToStringItem x ++ "," ++ jsToStringList (y :: xs)

end

/-- Coercion of a JSON value to string as the js String function performs
it (used where the source interpolates or encodes a js value). -/
def jsToString : Json → String
  | .null => "null"
  | .bool true => "true"
  | .bool false => "false"
  | .num n => toString n
  | .str s => s
  | .obj _ => "[object Object]"
  | .arr xs => jsToStringList xs

/-- Truthiness of a possibly-undefined string, as js tests it. -/
def strTruthy : Option String → Bool
  | none => false
  | some s => s != ""

/-- Response object as the transport callback delivers it: status code,
headers, and the parsed body (none when the response carries none); the
callback's third argument equals the response object's body property. -/
structure Resp where
  statusCode : Nat
  headers : List (String × String) := []
  body : Option Json := none
deriving Repr

/-- Failure surfaced to a caller: the transport's own error propagated
unchanged, a RequestError carrying its machine-readable code and the
response body (the human-readable message the source also stores is not
the subject of any claim and is omitted), or the js runtime TypeError
raised when the source dereferences a property of undefined or null. -/
inductive Failure : Type where
  | transport : String → Failure
  | reqError : String → Option Json → Failure
  | jsTypeError : Failure
deriving Repr

/-- Resolved value of the cache collaborator's get for a key: none models
the null the collaborator returns when the record does not exist. -/
def CacheStore : Type := String → Option CacheEntry

/-- Transport as the request library exposes it: called with the final
options, it fails with a transport error or delivers the response. -/
def Transport : Type := RequestOpts → Except String Resp

/-- Assignment of a header (overwriting the value when the name is already
present, appending otherwise), as js property assignment behaves on the
headers object. -/
def setHeader (headers : List (String × String)) (name value : String) :
    List (String × String) :=
  if headers.lookup name = none then headers ++ [(name, value)]
  else headers.map (fun kv => if kv.1 = name then (name, value) else kv)

/-- Outcome of the dispatcher: whether the cache collaborator was
consulted, the options actually handed to the transport (carrying the
conditional header when one was attached), and the settled value: the
response paired with the effective body, or the propagated failure. -/
structure WrappedOutcome where
  lookedUp : Bool
  sentOpts : RequestOpts
  result : Except Failure (Resp × Option Json)
deriving Repr

/-- Embedding of the dispatcher, the source method requestWrapped (named
with a leading underscore there): compute the cache key, skip the lookup
when no cache is configured or the method is present and not GET
(resolving with an empty record), otherwise consult the collaborator;
destructure etag and body out of the record (an absent record counts as
empty), attach an if-none-match header when the etag is truthy, call the
transport, and resolve with the response paired with body || cacheBody. -/
def requestWrapped (cache : Option CacheStore) (transport : Transport)
    (opts : RequestOpts) : WrappedOutcome :=
  let cacheKey := getCacheKey opts
  let skipLookup : Bool := cache.isNone || (opts.method.isSome && opts.method != some "GET")
  let whenCacheChecked : Option CacheEntry :=
    if skipLookup then some {}
    else
      match cache with
      | some store => store cacheKey
      | none => some {}
  let entry : CacheEntry := whenCacheChecked.getD {}
  let etag : Option String := entry.etag
  let cacheBody : Option Json := entry.body
  let sentOpts : RequestOpts :=
    if strTruthy etag then
      { opts with headers := setHeader opts.headers "if-none-match" (etag.getD "") }
    else opts
  let result : Except Failure (Resp × Option Json) :=
    match transport sentOpts with
    | .error e => .error (.transport e)
    | .ok res => .ok (res, if jsTruthy res.body then res.body else cacheBody)
  { lookedUp := !skipLookup, sentOpts := sentOpts, result := result }

/-- Uppercase hexadecimal digit for a value below 16. -/
def hexDigitUpper (n : Nat) : Char :=
  if n < 10 then Char.ofNat (48 + n) else Char.ofNat (55 + n)

/-- UTF-8 bytes of one character's code point. -/
def utf8Bytes (c : Char) : List Nat :=
  let n := c.toNat
  if n < 0x80 then [n]
  else if n < 0x800 then [0xC0 + n / 0x40, 0x80 + n % 0x40]
  else if n < 0x10000 then
    [0xE0 + n / 0x1000, 0x80 + (n / 0x40) % 0x40, 0x80 + n % 0x40]
  else
    [0xF0 + n / 0x40000, 0x80 + (n / 0x1000) % 0x40, 0x80 + (n / 0x40) % 0x40,
     0x80 + n % 0x40]

/-- Model of the js encodeURIComponent: unreserved characters kept
literal, every other character written as the percent-escaped bytes of its
utf-8 encoding, with uppercase hex digits. -/
def encodeURIComponent (s : String) : String :=
  String.join (s.toList.map (fun c =>
    if c.isAlphanum || c ∈ ['-', '_', '.', '!', '~', '*', Char.ofNat 39, '(', ')'] then
      String.singleton c
    else
      String.join ((utf8Bytes c).map (fun b =>
        "%" ++ String.singleton (hexDigitUpper (b / 16)) ++
          String.singleton (hexDigitUpper (b % 16))))))

/-- View-query keys whose values CouchDB expects JSON-typed: the source's
KEYS_TO_ENCODE constant. -/
def KEYS_TO_ENCODE : List String := ["key", "keys", "startkey", "endkey"]

/-- Loop at the top of get, mango and changes: JSON-stringify the value of
every query parameter whose name is in KEYS_TO_ENCODE, leave every other
parameter untouched. -/
def encodeQuery (query : List (String × Json)) : List (String × Json) :=
  query.map (fun kv =>
    if KEYS_TO_ENCODE.contains kv.1 then (kv.1, Json.str (jsonStringify kv.2)) else kv)

/-- Envelope every data method resolves with: data, headers and status. -/
structure Envelope where
  data : Option Json
  headers : List (String × String)
  status : Nat
deriving Repr

/-- Observable outcome of one client method call: the settled promise
value, the options the method handed to the dispatcher (none when it
rejected before dispatching anything), and the fire-and-forget cache write
it issued (key and record), if any. -/
structure MethodOutcome (α : Type) where
  result : Except Failure α
  requested : Option RequestOpts := none
  cacheWrite : Option (String × CacheEntry) := none
deriving Repr

/-- Embedding of get(dbName, uri, query): JSON-encode the reserved query
keys, build the request options, dispatch, map 404 to EDOCMISSING and any
other status besides 200 and 304 to EUNKNOWN, write the cache record when
the status is 200 and a cache is configured, and resolve with the
envelope. -/
def NodeCouchDB.get (baseUrl : String) (cache : Option CacheStore)
    (transport : Transport) (dbName uri : String)
    (query : List (String × Json) := []) : MethodOutcome Envelope :=
  let requestOpts : RequestOpts :=
    { url := baseUrl ++ "/" ++ dbName ++ "/" ++ uri, qs := encodeQuery query }
  let w := requestWrapped cache transport requestOpts
  match w.result with
  | .error e => { result := .error e, requested := some w.sentOpts }
  | .ok (res, body) =>
      if res.statusCode = 404 then
        { result := .error (.reqError "EDOCMISSING" body), requested := some w.sentOpts }
      else if res.statusCode ≠ 200 ∧ res.statusCode ≠ 304 then
        { result := .error (.reqError "EUNKNOWN" body), requested := some w.sentOpts }
      else
        { result := .ok { data := body, headers := res.headers, status := res.statusCode },
          requested := some w.sentOpts,
          cacheWrite :=
            if res.statusCode = 200 ∧ cache.isSome then
              some (getCacheKey requestOpts,
                    { body := body, etag := headerGet res.headers "etag" })
            else none }

/-- Embedding of getAttachment(dbName, docId, attachmentName,
docRevision): an explicit GET with the revision in qs, the same status
mapping as get, and the same conditional cache write. -/
def NodeCouchDB.getAttachment (baseUrl : String) (cache : Option CacheStore)
    (transport : Transport) (dbName docId attachmentName docRevision : String) :
    MethodOutcome Envelope :=
  let requestOpts : RequestOpts :=
    { method := some "GET",
      url := baseUrl ++ "/" ++ dbName ++ "/" ++ docId ++ "/" ++ attachmentName,
      qs := [("rev", Json.str docRevision)] }
  let w := requestWrapped cache transport requestOpts
  match w.result with
  | .error e => { result := .error e, requested := some w.sentOpts }
  | .ok (res, body) =>
      if res.statusCode = 404 then
        { result := .error (.reqError "EDOCMISSING" body), requested := some w.sentOpts }
      else if res.statusCode ≠ 200 ∧ res.statusCode ≠ 304 then
        { result := .error (.reqError "EUNKNOWN" body), requested := some w.sentOpts }
      else
        { result := .ok { data := body, headers := res.headers, status := res.statusCode },
          requested := some w.sentOpts,
          cacheWrite :=
            if res.statusCode = 200 ∧ cache.isSome then
              some (getCacheKey requestOpts,
                    { body := body, etag := headerGet res.headers "etag" })
            else none }

/-- Embedding of createDatabase(dbName): a PUT on the database url; 412 to
EDBEXISTS, 401 to ENOTADMIN, 400 to EBADREQUEST with the reason read off
the response body (a property access that raises the runtime TypeError
when the body is null or absent), any other status besides 201 to
EUNKNOWN, and 201 resolves with no arguments. -/
def NodeCouchDB.createDatabase (baseUrl : String) (cache : Option CacheStore)
    (transport : Transport) (dbName : String) : MethodOutcome Unit :=
  let opts : RequestOpts := { method := some "PUT", url := baseUrl ++ "/" ++ dbName }
  let w := requestWrapped cache transport opts
  match w.result with
  | .error e => { result := .error e, requested := some w.sentOpts }
  | .ok (res, body) =>
      if res.statusCode = 412 then
        { result := .error (.reqError "EDBEXISTS" body), requested := some w.sentOpts }
      else if res.statusCode = 401 then
        { result := .error (.reqError "ENOTADMIN" body), requested := some w.sentOpts }
      else if res.statusCode = 400 then
        match res.body with
        | none => { result := .error .jsTypeError, requested := some w.sentOpts }
        | some Json.null => { result := .error .jsTypeError, requested := some w.sentOpts }
        | some _ => { result := .error (.reqError "EBADREQUEST" body), requested := some w.sentOpts }
      else if res.statusCode ≠ 201 then
        { result := .error (.reqError "EUNKNOWN" body), requested := some w.sentOpts }
      else
        { result := .ok (), requested := some w.sentOpts }

/-- Embedding of dropDatabase(dbName): a DELETE on the database url with a
trailing slash; 404 to EDBMISSING, 401 to ENOTADMIN, any other status
besides 200 to EUNKNOWN, and 200 resolves with no arguments. -/
def NodeCouchDB.dropDatabase (baseUrl : String) (cache : Option CacheStore)
    (transport : Transport) (dbName : String) : MethodOutcome Unit :=
  let opts : RequestOpts :=
    { method := some "DELETE", url := baseUrl ++ "/" ++ dbName ++ "/" }
  let w := requestWrapped cache transport opts
  match w.result with
  | .error e => { result := .error e, requested := some w.sentOpts }
  | .ok (res, body) =>
      if res.statusCode = 404 then
        { result := .error (.reqError "EDBMISSING" body), requested := some w.sentOpts }
      else if res.statusCode = 401 then
        { result := .error (.reqError "ENOTADMIN" body), requested := some w.sentOpts }
      else if res.statusCode ≠ 200 then
        { result := .error (.reqError "EUNKNOWN" body), requested := some w.sentOpts }
      else
        { result := .ok (), requested := some w.sentOpts }

/-- Embedding of the shared status guard for document manipulation
(insert, update, design update, delete), the source method named with a
leading underscore: 400, 401, 404 and 409 each raise their code. -/
def checkDocumentManipulationStatus (statusCode : Nat) (body : Option Json) :
    Option Failure :=
  if statusCode = 400 then some (.reqError "EBADREQUEST" body)
  else if statusCode = 401 then some (.reqError "EUNAUTHORIZED" body)
  else if statusCode = 404 then some (.reqError "EDOCMISSING" body)
  else if statusCode = 409 then some (.reqError "EDOCCONFLICT" body)
  else none

/-- Embedding of insert(dbName, data): a POST with the document as body,
the shared manipulation guard, any other status besides 201 and 202 to
EUNKNOWN, and the envelope on success. -/
def NodeCouchDB.insert (baseUrl : String) (cache : Option CacheStore)
    (transport : Transport) (dbName : String) (data : Json) : MethodOutcome Envelope :=
  let opts : RequestOpts :=
    { method := some "POST", url := baseUrl ++ "/" ++ dbName, body := some data }
  let w := requestWrapped cache transport opts
  match w.result with
  | .error e => { result := .error e, requested := some w.sentOpts }
  | .ok (res, body) =>
      match checkDocumentManipulationStatus res.statusCode body with
      | some f => { result := .error f, requested := some w.sentOpts }
      | none =>
          if res.statusCode ≠ 201 ∧ res.statusCode ≠ 202 then
            { result := .error (.reqError "EUNKNOWN" body), requested := some w.sentOpts }
          else
            { result := .ok { data := body, headers := res.headers, status := res.statusCode },
              requested := some w.sentOpts }

/-- Embedding of update(dbName, data): reject with EFIELDMISSING before
any dispatch when the document's id or revision field is falsy (property
access on a null document raises the runtime TypeError instead); otherwise
a PUT on the percent-encoded document id with the shared manipulation
guard, any other status besides 201 and 202 to EUNKNOWN, and the envelope
on success. -/
def NodeCouchDB.update (baseUrl : String) (cache : Option CacheStore)
    (transport : Transport) (dbName : String) (data : Json) : MethodOutcome Envelope :=
  match data with
  | Json.null => { result := .error .jsTypeError }
  | _ =>
    if !jsTruthy (jsGet data "_id") || !jsTruthy (jsGet data "_rev") then
      { result := .error (.reqError "EFIELDMISSING" none) }
    else
      let opts : RequestOpts :=
        { method := some "PUT",
          url := baseUrl ++ "/" ++ dbName ++ "/" ++
            encodeURIComponent (jsToString ((jsGet data "_id").getD Json.null)),
          body := some data }
      let w := requestWrapped cache transport opts
      match w.result with
      | .error e => { result := .error e, requested := some w.sentOpts }
      | .ok (res, body) =>
          match checkDocumentManipulationStatus res.statusCode body with
          | some f => { result := .error f, requested := some w.sentOpts }
          | none =>
              if res.statusCode ≠ 201 ∧ res.statusCode ≠ 202 then
                { result := .error (.reqError "EUNKNOWN" body), requested := some w.sentOpts }
              else
                { result := .ok { data := body, headers := res.headers, status := res.statusCode },
                  requested := some w.sentOpts }

/-- Embedding of del(dbName, docId, docRevision): a DELETE on the
percent-encoded document id with the revision in qs, the shared
manipulation guard, any other status besides 200 to EUNKNOWN, and the
envelope on success. -/
def NodeCouchDB.del (baseUrl : String) (cache : Option CacheStore)
    (transport : Transport) (dbName docId docRevision : String) : MethodOutcome Envelope :=
  let opts : RequestOpts :=
    { method := some "DELETE",
      url := baseUrl ++ "/" ++ dbName ++ "/" ++ encodeURIComponent docId,
      qs := [("rev", Json.str docRevision)] }
  let w := requestWrapped cache transport opts
  match w.result with
  | .error e => { result := .error e, requested := some w.sentOpts }
  | .ok (res, body) =>
      match checkDocumentManipulationStatus res.statusCode body with
      | some f => { result := .error f, requested := some w.sentOpts }
      | none =>
          if res.statusCode ≠ 200 then
            { result := .error (.reqError "EUNKNOWN" body), requested := some w.sentOpts }
          else
            { result := .ok { data := body, headers := res.headers, status := res.statusCode },
              requested := some w.sentOpts }

/-- Match of the anchored pattern CouchDB slash digits against a header:
the captured maximal digit group, or none when the header does not start
with CouchDB/ followed by at least one digit. -/
def matchCouchVersion (serverHeader : String) : Option String :=
  match serverHeader.toList with
  | 'C' :: 'o' :: 'u' :: 'c' :: 'h' :: 'D' :: 'B' :: '/' :: rest =>
      let ds := rest.takeWhile Char.isDigit
      if ds = [] then none else some (String.mk ds)
  | _ => none

/-- Numeric value of a captured digit string, as the js comparison of a
string with a number coerces it. -/
def couchMajorNumber (v : String) : Nat :=
  v.toList.foldl (fun a c => 10 * a + (c.toNat - 48)) 0

/-- Embedding of the server-version guard, the source method named with a
leading underscore: ESERVERNOTSUPPORTED unless the header matches the
CouchDB/major pattern with a nonempty capture, ESERVEROLD when the
captured major, numerically coerced as the js comparison of a string with
a number does, is below the minimum (mango passes 2). -/
def checkServerVersion (serverHeader : String) (minServerVersion : Nat) :
    Option Failure :=
  match matchCouchVersion serverHeader with
  | none => some (.reqError "ESERVERNOTSUPPORTED" none)
  | some v =>
      if v = "" then some (.reqError "ESERVERNOTSUPPORTED" none)
      else if couchMajorNumber v < minServerVersion then
        some (.reqError "ESERVEROLD" none)
      else none

/-- Test of the js comparison typeof v === 'object': true for objects,
arrays and null. -/
def typeofObject : Json → Bool
  | .obj _ => true
  | .arr _ => true
  | .null => true
  | _ => false

/-- Embedding of mango(dbName, mangoQuery, query): JSON-encode the
reserved query keys; when the mango query is a string, JSON.parse it (the
runtime parser is passed in as a function, a parse exception being none)
and reject an unparsable one with EBADREQUEST; reject a query that is not
object-typed with EBADREQUEST; dispatch a POST to the _find endpoint; then
run the server-version guard with minimum 2 before any status mapping (a
missing server header makes the property access raise the runtime
TypeError): 404 to EDOCMISSING, other statuses besides 200 and 304 to
EUNKNOWN, and the envelope on success. -/
def NodeCouchDB.mango (baseUrl : String) (cache : Option CacheStore)
    (transport : Transport) (jsonParse : String → Option Json)
    (dbName : String) (mangoQuery : Json)
    (query : List (String × Json) := []) : MethodOutcome Envelope :=
  let query1 := encodeQuery query
  let parsed : Except Failure Json :=
    match mangoQuery with
    | Json.str s =>
        match jsonParse s with
        | some v => .ok v
        | none => .error (.reqError "EBADREQUEST" none)
    | v => .ok v
  match parsed with
  | .error e => { result := .error e }
  | .ok mq =>
    if !typeofObject mq then { result := .error (.reqError "EBADREQUEST" none) }
    else
      let requestOpts : RequestOpts :=
        { method := some "POST", url := baseUrl ++ "/" ++ dbName ++ "/_find",
          body := some mq, qs := query1 }
      let w := requestWrapped cache transport requestOpts
      match w.result with
      | .error e => { result := .error e, requested := some w.sentOpts }
      | .ok (res, body) =>
          match headerGet res.headers "server" with
          | none => { result := .error .jsTypeError, requested := some w.sentOpts }
          | some serverHeader =>
              match checkServerVersion serverHeader 2 with
              | some f => { result := .error f, requested := some w.sentOpts }
              | none =>
                  if res.statusCode = 404 then
                    { result := .error (.reqError "EDOCMISSING" body),
                      requested := some w.sentOpts }
                  else if res.statusCode ≠ 200 ∧ res.statusCode ≠ 304 then
                    { result := .error (.reqError "EUNKNOWN" body),
                      requested := some w.sentOpts }
                  else
                    { result := .ok { data := body, headers := res.headers,
                                      status := res.statusCode },
                      requested := some w.sentOpts }

/-- Modelled from the spec: the cache key the spec describes, a stable
hash of the fully-qualified URL including its query string - here the url
joined with the JSON-stringified query-string parameters the method
actually sends (its qs). Stated only for comparison with getCacheKey,
which is what the source computes. -/
def specCacheKey (requestOpts : RequestOpts) : String :=
  requestOpts.url ++ "?" ++ jsonStringify (Json.obj requestOpts.qs)

/-- Modelled from the spec: the wire form of the query string as the
external request library serializes qs (percent-encoded key=value pairs
joined with ampersands); the library is not part of this repository's
sources, and this definition is used only to state the spec's
distinguishing wire example. -/
def qsStringify (qs : List (String × Json)) : String :=
  String.intercalate "&" (qs.map (fun kv =>
    encodeURIComponent kv.1 ++ "=" ++ encodeURIComponent (jsToString kv.2)))

/-- Effective body a method sees when the cache lookup was skipped or
missed: the response body when truthy, otherwise undefined. -/
def effectiveBody (res : Resp) : Option Json :=
  if jsTruthy res.body then res.body else none

/-- C1: the claim fails on the code: the cache key is computed from the
request options' query property, which no caller ever sets (every method
passes its parameters as qs), so two get requests for the same url whose
query strings differ receive the same cache key, while the key the spec
describes (hashing the fully-qualified url including the query string)
distinguishes them. -/
theorem c1_cache_key_ignores_query_string :
    getCacheKey { url := "http://127.0.0.1:5984/db/doc",
                  qs := [("startkey", Json.str "a")] } =
      getCacheKey { url := "http://127.0.0.1:5984/db/doc",
                    qs := [("startkey", Json.str "b")] } ∧
    specCacheKey { url := "http://127.0.0.1:5984/db/doc",
                   qs := [("startkey", Json.str "a")] } ≠
      specCacheKey { url := "http://127.0.0.1:5984/db/doc",
                     qs := [("startkey", Json.str "b")] } := by
  exact ⟨rfl, by decide⟩

/-- C5: update with a document lacking the id field or the revision field
rejects immediately with EFIELDMISSING and hands nothing to the
dispatcher, so no network request is issued. -/
theorem c5_update_missing_field_rejects_locally
    (baseUrl dbName : String) (cache : Option CacheStore) (t : Transport)
    (fs : List (String × Json))
    (h : fs.lookup "_id" = none ∨ fs.lookup "_rev" = none) :
    (NodeCouchDB.update baseUrl cache t dbName (Json.obj fs)).result
        = .error (.reqError "EFIELDMISSING" none) ∧
    (NodeCouchDB.update baseUrl cache t dbName (Json.obj fs)).requested = none := by
  rcases h with h | h <;>
    simp [NodeCouchDB.update, jsGet, jsTruthy, h]

/-- Witness for C5: updating with an empty document is rejected with
EFIELDMISSING and no request options are built. -/
theorem c5_witness :
    ([] : List (String × Json)).lookup "_id" = none ∧
    (NodeCouchDB.update "http://127.0.0.1:5984" none
        (fun _ => .ok { statusCode := 201 }) "db" (Json.obj [])).result
        = .error (.reqError "EFIELDMISSING" none) ∧
    (NodeCouchDB.update "http://127.0.0.1:5984" none
        (fun _ => .ok { statusCode := 201 }) "db" (Json.obj [])).requested = none := by
  refine ⟨rfl, ?_⟩
  exact c5_update_missing_field_rejects_locally "http://127.0.0.1:5984" "db" none
    (fun _ => .ok { statusCode := 201 }) [] (Or.inl rfl)

/-- C8 counterexample: a 202 response to createDatabase is not treated as
success: the promise rejects with EUNKNOWN. -/
theorem c8_counterexample_202_rejected :
    (NodeCouchDB.createDatabase "http://127.0.0.1:5984" none
        (fun _ => .ok { statusCode := 202 }) "db").result
      = .error (.reqError "EUNKNOWN" none) ∧
    ((NodeCouchDB.createDatabase "http://127.0.0.1:5984" none
        (fun _ => .ok { statusCode := 202 }) "db").result).isOk = false :=
  ⟨rfl, rfl⟩

/-- C8 amended: the createDatabase status mapping of the code: 412 yields
EDBEXISTS, 401 yields ENOTADMIN, 400 yields EBADREQUEST carrying the
response body the reason is read from, 201 resolves, and any other status,
202 included, yields EUNKNOWN. -/
theorem c8_createDatabase_status_mapping
    (baseUrl dbName : String) (cache : Option CacheStore) (t : Transport)
    (res : Resp) (ht : ∀ o, t o = .ok res) :
    (res.statusCode = 412 →
        (NodeCouchDB.createDatabase baseUrl cache t dbName).result
          = .error (.reqError "EDBEXISTS" (effectiveBody res))) ∧
    (res.statusCode = 401 →
        (NodeCouchDB.createDatabase baseUrl cache t dbName).result
          = .error (.reqError "ENOTADMIN" (effectiveBody res))) ∧
    (∀ bfs, res.statusCode = 400 → res.body = some (Json.obj bfs) →
        (NodeCouchDB.createDatabase baseUrl cache t dbName).result
          = .error (.reqError "EBADREQUEST" (effectiveBody res))) ∧
    (res.statusCode = 201 →
        (NodeCouchDB.createDatabase baseUrl cache t dbName).result = .ok ()) ∧
    (res.statusCode ∉ ([412, 401, 400, 201] : List Nat) →
        (NodeCouchDB.createDatabase baseUrl cache t dbName).result
          = .error (.reqError "EUNKNOWN" (effectiveBody res))) := by
  refine ⟨?_, ?_, ?_, ?_, ?_⟩
  · intro h
    simp [NodeCouchDB.createDatabase, requestWrapped, ht, h, effectiveBody]
  · intro h
    simp [NodeCouchDB.createDatabase, requestWrapped, ht, h, effectiveBody]
  · intro bfs h hb
    simp [NodeCouchDB.createDatabase, requestWrapped, ht, h, hb, effectiveBody, jsTruthy,
      Json.truthy]
  · intro h
    simp [NodeCouchDB.createDatabase, requestWrapped, ht, h, effectiveBody]
  · intro h
    simp only [List.mem_cons, List.mem_singleton, not_or] at h
    obtain ⟨h412, h401, h400, h201, -⟩ := h
    simp [NodeCouchDB.createDatabase, requestWrapped, ht, h412, h401, h400, h201,
      effectiveBody]

/-- Witness for C8 amended: a 201 response resolves the createDatabase
promise. -/
theorem c8_witness :
    (NodeCouchDB.createDatabase "http://127.0.0.1:5984" none
        (fun _ => .ok { statusCode := 201 }) "db").result = .ok () :=
  (c8_createDatabase_status_mapping "http://127.0.0.1:5984" "db" none
    (fun _ => .ok { statusCode := 201 }) { statusCode := 201 }
    (fun _ => rfl)).2.2.2.1 rfl

/-- C9 counterexample: a 202 response to dropDatabase is not treated as
success: the promise rejects with EUNKNOWN. -/
theorem c9_counterexample_202_rejected :
    (NodeCouchDB.dropDatabase "http://127.0.0.1:5984" none
        (fun _ => .ok { statusCode := 202 }) "db").result
      = .error (.reqError "EUNKNOWN" none) ∧
    ((NodeCouchDB.dropDatabase "http://127.0.0.1:5984" none
        (fun _ => .ok { statusCode := 202 }) "db").result).isOk = false :=
  ⟨rfl, rfl⟩

/-- C9 amended: the dropDatabase status mapping of the code: 404 yields
EDBMISSING, 401 yields ENOTADMIN, 200 resolves, and any other status, 202
included, yields EUNKNOWN. -/
theorem c9_dropDatabase_status_mapping
    (baseUrl dbName : String) (cache : Option CacheStore) (t : Transport)
    (res : Resp) (ht : ∀ o, t o = .ok res) :
    (res.statusCode = 404 →
        (NodeCouchDB.dropDatabase baseUrl cache t dbName).result
          = .error (.reqError "EDBMISSING" (effectiveBody res))) ∧
    (res.statusCode = 401 →
        (NodeCouchDB.dropDatabase baseUrl cache t dbName).result
          = .error (.reqError "ENOTADMIN" (effectiveBody res))) ∧
    (res.statusCode = 200 →
        (NodeCouchDB.dropDatabase baseUrl cache t dbName).result = .ok ()) ∧
    (res.statusCode ∉ ([404, 401, 200] : List Nat) →
        (NodeCouchDB.dropDatabase baseUrl cache t dbName).result
          = .error (.reqError "EUNKNOWN" (effectiveBody res))) := by
  refine ⟨?_, ?_, ?_, ?_⟩
  · intro h
    simp [NodeCouchDB.dropDatabase, requestWrapped, ht, h, effectiveBody]
  · intro h
    simp [NodeCouchDB.dropDatabase, requestWrapped, ht, h, effectiveBody]
  · intro h
    simp [NodeCouchDB.dropDatabase, requestWrapped, ht, h, effectiveBody]
  · intro h
    simp only [List.mem_cons, List.mem_singleton, not_or] at h
    obtain ⟨h404, h401, h200, -⟩ := h
    simp [NodeCouchDB.dropDatabase, requestWrapped, ht, h404, h401, h200, effectiveBody]

/-- Witness for C9 amended: a 200 response resolves the dropDatabase
promise. -/
theorem c9_witness :
    (NodeCouchDB.dropDatabase "http://127.0.0.1:5984" none
        (fun _ => .ok { statusCode := 200 }) "db").result = .ok () :=
  (c9_dropDatabase_status_mapping "http://127.0.0.1:5984" "db" none
    (fun _ => .ok { statusCode := 200 }) { statusCode := 200 }
    (fun _ => rfl)).2.2.1 rfl

/-- C10: the dispatcher substitutes the cached fallback body whenever the
transport delivers a falsy body, whatever the status code: on a GET with a
cache hit holding a body, a response whose own body is falsy resolves with
the cached body. -/
theorem c10_falsy_body_takes_cached_fallback
    (store : CacheStore) (t : Transport) (opts : RequestOpts)
    (res : Resp) (e : CacheEntry) (cb : Json)
    (hmethod : opts.method = none ∨ opts.method = some "GET")
    (hhit : store (getCacheKey opts) = some e)
    (hbody : e.body = some cb)
    (ht : ∀ o, t o = .ok res)
    (hfalsy : jsTruthy res.body = false) :
    (requestWrapped (some store) t opts).result = .ok (res, some cb) := by
  rcases hmethod with h | h <;>
    simp [requestWrapped, h, hhit, hbody, ht, hfalsy]

/-- Witness for C10: a 200 response with an empty-string body resolves
with the stale cached body rather than the empty network body. -/
theorem c10_witness :
    jsTruthy (some (Json.str "")) = false ∧
    (requestWrapped
        (some (fun _ => some { etag := some "W/abc", body := some (Json.str "cached") }))
        (fun _ => .ok { statusCode := 200, body := some (Json.str "") })
        { url := "http://127.0.0.1:5984/db/doc" }).result
      = .ok ({ statusCode := 200, body := some (Json.str "") }, some (Json.str "cached")) :=
  ⟨rfl, c10_falsy_body_takes_cached_fallback
    (fun _ => some { etag := some "W/abc", body := some (Json.str "cached") })
    (fun _ => .ok { statusCode := 200, body := some (Json.str "") })
    { url := "http://127.0.0.1:5984/db/doc" }
    { statusCode := 200, body := some (Json.str "") }
    { etag := some "W/abc", body := some (Json.str "cached") }
    (Json.str "cached") (Or.inl rfl) rfl rfl (fun _ => rfl) rfl⟩

/-- Helper: with a transport that always delivers res, the dispatcher
resolves with res paired with some effective body. -/
theorem requestWrapped_resolves (cache : Option CacheStore) (t : Transport)
    (opts : RequestOpts) (res : Resp) (ht : ∀ o, t o = .ok res) :
    ∃ b, (requestWrapped cache t opts).result = .ok (res, b) := by
  unfold requestWrapped
  simp [ht]

/-- C2: a 304 response for which a cached record was found resolves with
the cached body: when a first get with a cache configured wrote the record
under key k, and a second get of the same database, uri and query runs
against a cache holding that record under k, a 304 response carrying no
body resolves the second get with data equal to the body originally
written to the cache. -/
theorem c2_304_resolves_with_cached_body
    (baseUrl dbName uri : String) (query : List (String × Json))
    (store1 store2 : CacheStore) (t1 t2 : Transport)
    (k : String) (e : CacheEntry) (res2 : Resp)
    (hwrite : (NodeCouchDB.get baseUrl (some store1) t1 dbName uri query).cacheWrite
        = some (k, e))
    (hstore : store2 k = some e)
    (ht2 : ∀ o, t2 o = .ok res2)
    (h304 : res2.statusCode = 304) (hnobody : res2.body = none) :
    (NodeCouchDB.get baseUrl (some store2) t2 dbName uri query).result
      = .ok { data := e.body, headers := res2.headers, status := 304 } := by
  have hk : getCacheKey { url := baseUrl ++ "/" ++ dbName ++ "/" ++ uri,
                          qs := encodeQuery query } = k := by
    simp only [NodeCouchDB.get] at hwrite
    split at hwrite
    · simp at hwrite
    · split at hwrite
      · simp at hwrite
      · split at hwrite
        · simp at hwrite
        · split at hwrite
          · exact congrArg Prod.fst (Option.some.inj hwrite)
          · simp at hwrite
  have he : (store2 (getCacheKey { url := baseUrl ++ "/" ++ dbName ++ "/" ++ uri,
                                   qs := encodeQuery query })) = some e := hk ▸ hstore
  cases hE : strTruthy e.etag <;>
    simp [NodeCouchDB.get, requestWrapped, he, hE, ht2, h304, hnobody, jsTruthy]

/-- Witness for C2: a concrete 200 GET writes the record, and the repeat
GET against a cache holding it resolves a 304 with the original body. -/
theorem c2_witness :
    (NodeCouchDB.get "http://127.0.0.1:5984"
        (some (fun _ => none))
        (fun _ => .ok { statusCode := 200, headers := [("etag", "1-abc")],
                        body := some (Json.obj [("ok", Json.bool true)]) })
        "db" "doc" []).cacheWrite
      = some ("http://127.0.0.1:5984/db/doc?\x7b\x7d",
              { etag := some "1-abc", body := some (Json.obj [("ok", Json.bool true)]) }) ∧
    (NodeCouchDB.get "http://127.0.0.1:5984"
        (some (fun s => if s = "http://127.0.0.1:5984/db/doc?\x7b\x7d" then
            some { etag := some "1-abc", body := some (Json.obj [("ok", Json.bool true)]) }
          else none))
        (fun _ => .ok { statusCode := 304, headers := [("x", "y")] })
        "db" "doc" []).result
      = .ok { data := some (Json.obj [("ok", Json.bool true)]), headers := [("x", "y")],
              status := 304 } := by
  refine ⟨rfl, ?_⟩
  exact c2_304_resolves_with_cached_body "http://127.0.0.1:5984" "db" "doc" []
    (fun _ => none)
    (fun s => if s = "http://127.0.0.1:5984/db/doc?\x7b\x7d" then
        some { etag := some "1-abc", body := some (Json.obj [("ok", Json.bool true)]) }
      else none)
    (fun _ => .ok { statusCode := 200, headers := [("etag", "1-abc")],
                    body := some (Json.obj [("ok", Json.bool true)]) })
    (fun _ => .ok { statusCode := 304, headers := [("x", "y")] })
    "http://127.0.0.1:5984/db/doc?\x7b\x7d"
    { etag := some "1-abc", body := some (Json.obj [("ok", Json.bool true)]) }
    { statusCode := 304, headers := [("x", "y")] }
    rfl (by simp) (fun _ => rfl) rfl rfl

/-- C3: the cache write of get and of getAttachment happens exactly on a
200 response with a cache configured; it stores the response etag header
together with the resolved body under the request's own cache key, while
the promise resolves with the envelope alongside the detached write; on
any other status, or with no cache configured, the write does not happen;
and no non-GET operation ever writes the cache. -/
theorem c3_cache_write_discipline
    (baseUrl dbName uri docId att rev : String)
    (query : List (String × Json)) (cache : Option CacheStore)
    (t t2 : Transport) (res : Resp) (data mq : Json)
    (jsonParse : String → Option Json)
    (ht : ∀ o, t o = .ok res) :
    (res.statusCode = 200 ∧ cache.isSome →
       ∃ env : Envelope,
         (NodeCouchDB.get baseUrl cache t dbName uri query).result = .ok env ∧
         (NodeCouchDB.get baseUrl cache t dbName uri query).cacheWrite =
           some (getCacheKey { url := baseUrl ++ "/" ++ dbName ++ "/" ++ uri,
                               qs := encodeQuery query },
                 { etag := headerGet res.headers "etag", body := env.data })) ∧
    (¬(res.statusCode = 200 ∧ cache.isSome) →
       (NodeCouchDB.get baseUrl cache t dbName uri query).cacheWrite = none) ∧
    (res.statusCode = 200 ∧ cache.isSome →
       ∃ env : Envelope,
         (NodeCouchDB.getAttachment baseUrl cache t dbName docId att rev).result
             = .ok env ∧
         (NodeCouchDB.getAttachment baseUrl cache t dbName docId att rev).cacheWrite =
           some (getCacheKey { method := some "GET",
                               url := baseUrl ++ "/" ++ dbName ++ "/" ++ docId
                                 ++ "/" ++ att,
                               qs := [("rev", Json.str rev)] },
                 { etag := headerGet res.headers "etag", body := env.data })) ∧
    (¬(res.statusCode = 200 ∧ cache.isSome) →
       (NodeCouchDB.getAttachment baseUrl cache t dbName docId att rev).cacheWrite
         = none) ∧
    (NodeCouchDB.insert baseUrl cache t2 dbName data).cacheWrite = none ∧
    (NodeCouchDB.update baseUrl cache t2 dbName data).cacheWrite = none ∧
    (NodeCouchDB.del baseUrl cache t2 dbName docId rev).cacheWrite = none ∧
    (NodeCouchDB.createDatabase baseUrl cache t2 dbName).cacheWrite = none ∧
    (NodeCouchDB.dropDatabase baseUrl cache t2 dbName).cacheWrite = none ∧
    (NodeCouchDB.mango baseUrl cache t2 jsonParse dbName mq query).cacheWrite = none := by
  refine ⟨?_, ?_, ?_, ?_, ?_, ?_, ?_, ?_, ?_, ?_⟩
  · rintro ⟨h200, hc⟩
    obtain ⟨store, rfl⟩ := Option.isSome_iff_exists.mp hc
    obtain ⟨b, hb⟩ := requestWrapped_resolves (some store) t
      { url := baseUrl ++ "/" ++ dbName ++ "/" ++ uri, qs := encodeQuery query } res ht
    refine ⟨{ data := b, headers := res.headers, status := res.statusCode }, ?_, ?_⟩ <;>
      simp [NodeCouchDB.get, hb, h200]
  · intro h
    obtain ⟨b, hb⟩ := requestWrapped_resolves cache t
      { url := baseUrl ++ "/" ++ dbName ++ "/" ++ uri, qs := encodeQuery query } res ht
    by_cases h200 : res.statusCode = 200
    · have hc : cache = none := by
        cases cache with
        | none => rfl
        | some store => exact absurd ⟨h200, rfl⟩ h
      subst hc
      simp [NodeCouchDB.get, hb, h200]
    · simp [NodeCouchDB.get, hb, h200]
      repeat' split
      all_goals rfl
  · rintro ⟨h200, hc⟩
    obtain ⟨store, rfl⟩ := Option.isSome_iff_exists.mp hc
    obtain ⟨b, hb⟩ := requestWrapped_resolves (some store) t
      { method := some "GET",
        url := baseUrl ++ "/" ++ dbName ++ "/" ++ docId ++ "/" ++ att,
        qs := [("rev", Json.str rev)] } res ht
    refine ⟨{ data := b, headers := res.headers, status := res.statusCode }, ?_, ?_⟩ <;>
      simp [NodeCouchDB.getAttachment, hb, h200]
  · intro h
    obtain ⟨b, hb⟩ := requestWrapped_resolves cache t
      { method := some "GET",
        url := baseUrl ++ "/" ++ dbName ++ "/" ++ docId ++ "/" ++ att,
        qs := [("rev", Json.str rev)] } res ht
    by_cases h200 : res.statusCode = 200
    · have hc : cache = none := by
        cases cache with
        | none => rfl
        | some store => exact absurd ⟨h200, rfl⟩ h
      subst hc
      simp [NodeCouchDB.getAttachment, hb, h200]
    · simp [NodeCouchDB.getAttachment, hb, h200]
      repeat' split
      all_goals rfl
  · simp only [NodeCouchDB.insert]
    repeat' split
    all_goals rfl
  · simp only [NodeCouchDB.update]
    repeat' split
    all_goals rfl
  · simp only [NodeCouchDB.del]
    repeat' split
    all_goals rfl
  · simp only [NodeCouchDB.createDatabase]
    repeat' split
    all_goals rfl
  · simp only [NodeCouchDB.dropDatabase]
    repeat' split
    all_goals rfl
  · simp only [NodeCouchDB.mango]
    repeat' split
    all_goals rfl

/-- Witness for C3: a concrete 200 GET with a cache configured writes the
etag and body under the request's key while the promise resolves. -/
theorem c3_witness :
    (NodeCouchDB.get "http://127.0.0.1:5984" (some (fun _ => none))
        (fun _ => .ok { statusCode := 200, headers := [("etag", "1-abc")],
                        body := some (Json.str "B") }) "db" "doc" []).cacheWrite
      = some ("http://127.0.0.1:5984/db/doc?\x7b\x7d",
              { etag := some "1-abc", body := some (Json.str "B") }) ∧
    (∃ env : Envelope,
      (NodeCouchDB.get "http://127.0.0.1:5984" (some (fun _ => none))
          (fun _ => .ok { statusCode := 200, headers := [("etag", "1-abc")],
                          body := some (Json.str "B") }) "db" "doc" []).result = .ok env ∧
      (NodeCouchDB.get "http://127.0.0.1:5984" (some (fun _ => none))
          (fun _ => .ok { statusCode := 200, headers := [("etag", "1-abc")],
                          body := some (Json.str "B") }) "db" "doc" []).cacheWrite =
        some (getCacheKey { url := "http://127.0.0.1:5984" ++ "/" ++ "db" ++ "/" ++ "doc",
                            qs := encodeQuery [] },
              { etag := headerGet [("etag", "1-abc")] "etag", body := env.data })) :=
  ⟨rfl,
    (c3_cache_write_discipline "http://127.0.0.1:5984" "db" "doc" "doc" "a.txt" "1-r" []
      (some (fun _ => none))
      (fun _ => .ok { statusCode := 200, headers := [("etag", "1-abc")],
                      body := some (Json.str "B") })
      (fun _ => .ok { statusCode := 200, headers := [("etag", "1-abc")],
                      body := some (Json.str "B") })
      { statusCode := 200, headers := [("etag", "1-abc")], body := some (Json.str "B") }
      (Json.obj []) (Json.obj []) (fun _ => none) (fun _ => rfl)).1 ⟨rfl, rfl⟩⟩

/-- C4 counterexample: a cache hit whose stored etag is falsy (here the
empty string, as a 200 cached from a response without an etag header can
also produce) is consulted and found, yet no if-none-match header is
attached, against the claim that every hit attaches the header. -/
theorem c4_counterexample_hit_without_header :
    (requestWrapped
        (some (fun _ => some { etag := some "", body := some (Json.str "cached") }))
        (fun _ => .ok { statusCode := 200 })
        { url := "http://127.0.0.1:5984/db/doc" }).lookedUp = true ∧
    (fun _ => some { etag := some "", body := some (Json.str "cached") } : CacheStore)
        (getCacheKey { url := "http://127.0.0.1:5984/db/doc" })
      = some { etag := some "", body := some (Json.str "cached") } ∧
    headerGet (requestWrapped
        (some (fun _ => some { etag := some "", body := some (Json.str "cached") }))
        (fun _ => .ok { statusCode := 200 })
        { url := "http://127.0.0.1:5984/db/doc" }).sentOpts.headers "if-none-match"
      = none :=
  ⟨rfl, rfl, rfl⟩

/-- C4 amended: the dispatcher consults the cache collaborator iff a cache
is configured and the method is GET or unspecified; on a hit whose stored
etag is truthy it attaches if-none-match carrying that etag; on a hit
without a truthy etag, on a miss, and on a skipped lookup the options go
out unchanged. -/
theorem c4_cache_lookup_and_conditional_header
    (store : CacheStore) (cache : Option CacheStore) (t : Transport)
    (opts optsG optsN : RequestOpts)
    (hG : optsG.method = none ∨ optsG.method = some "GET")
    (hN : optsN.method.isSome ∧ optsN.method ≠ some "GET") :
    ((requestWrapped cache t opts).lookedUp
        = (cache.isSome && (opts.method == none || opts.method == some "GET"))) ∧
    ((requestWrapped (some store) t optsG).sentOpts =
      match store (getCacheKey optsG) with
      | some e =>
          if strTruthy e.etag then
            { optsG with headers := setHeader optsG.headers "if-none-match" (e.etag.getD "") }
          else optsG
      | none => optsG) ∧
    ((requestWrapped none t opts).sentOpts = opts) ∧
    ((requestWrapped cache t optsN).sentOpts = optsN) := by
  refine ⟨?_, ?_, ?_, ?_⟩
  · cases cache <;> cases h : opts.method <;>
      simp [requestWrapped, h, Option.isSome, bne]
  · rcases hG with h | h <;>
      cases hs : store (getCacheKey optsG) with
      | none => simp [requestWrapped, h, hs, strTruthy]
      | some e => cases hE : strTruthy e.etag <;> simp [requestWrapped, h, hs, hE]
  · simp [requestWrapped, strTruthy]
  · obtain ⟨hsome, hne⟩ := hN
    cases h : optsN.method with
    | none => rw [h] at hsome; simp at hsome
    | some m =>
        have hm : m ≠ "GET" := by
          intro hm
          exact hne (by rw [h, hm])
        simp [requestWrapped, h, hm, strTruthy]

/-- Witness for C4 amended: with a truthy stored etag the header goes out
on a GET, and a POST passes its options through untouched. -/
theorem c4_witness :
    ((requestWrapped (some (fun _ => some { etag := some "1-e", body := none }))
        (fun _ => .ok { statusCode := 200 })
        { url := "u" }).lookedUp
      = ((some (fun _ => some { etag := some "1-e", body := none }) :
            Option CacheStore).isSome
          && ((none : Option String) == none || (none : Option String) == some "GET"))) ∧
    ((requestWrapped (some (fun _ => some { etag := some "1-e", body := none }))
        (fun _ => .ok { statusCode := 200 })
        { url := "u" }).sentOpts =
      match (fun _ => some { etag := some "1-e", body := none } : CacheStore)
          (getCacheKey { url := "u" }) with
      | some e =>
          if strTruthy e.etag then
            { ({ url := "u" } : RequestOpts) with
                headers := setHeader ({ url := "u" } : RequestOpts).headers
                  "if-none-match" (e.etag.getD "") }
          else { url := "u" }
      | none => { url := "u" }) ∧
    ((requestWrapped none (fun _ => .ok { statusCode := 200 }) { url := "u" }).sentOpts
      = { url := "u" }) ∧
    ((requestWrapped (some (fun _ => some { etag := some "1-e", body := none }))
        (fun _ => .ok { statusCode := 200 })
        { method := some "POST", url := "u" }).sentOpts
      = { method := some "POST", url := "u" }) :=
  c4_cache_lookup_and_conditional_header
    (fun _ => some { etag := some "1-e", body := none })
    (some (fun _ => some { etag := some "1-e", body := none }))
    (fun _ => .ok { statusCode := 200 })
    { url := "u" } { url := "u" } { method := some "POST", url := "u" }
    (Or.inl rfl) ⟨rfl, by decide⟩

/-- Helper: the dispatcher never changes the qs of the options it sends. -/
theorem requestWrapped_sentOpts_qs (cache : Option CacheStore) (t : Transport)
    (opts : RequestOpts) : (requestWrapped cache t opts).sentOpts.qs = opts.qs := by
  simp only [requestWrapped]
  repeat' split
  all_goals rfl

/-- C6: a mango response whose server header does not match the
CouchDB/major pattern fails with ESERVERNOTSUPPORTED, and one whose
captured major version is numerically below 2 fails with ESERVEROLD, in
both cases whatever the status code, so before any status mapping is
applied (the witness exhibits this on a 404, which would otherwise map to
EDOCMISSING). -/
theorem c6_mango_server_version_guard
    (baseUrl dbName : String) (cache : Option CacheStore) (t : Transport)
    (jsonParse : String → Option Json) (mq : Json)
    (query : List (String × Json)) (res : Resp) (sh : String)
    (hmq : typeofObject mq = true)
    (ht : ∀ o, t o = .ok res)
    (hserver : headerGet res.headers "server" = some sh) :
    (matchCouchVersion sh = none →
        (NodeCouchDB.mango baseUrl cache t jsonParse dbName mq query).result
          = .error (.reqError "ESERVERNOTSUPPORTED" none)) ∧
    (∀ v, matchCouchVersion sh = some v → couchMajorNumber v < 2 →
        (NodeCouchDB.mango baseUrl cache t jsonParse dbName mq query).result
          = .error (.reqError "ESERVEROLD" none)) := by
  constructor
  · intro hv
    cases mq <;> simp [typeofObject] at hmq <;>
      simp [NodeCouchDB.mango, requestWrapped, ht, hserver, checkServerVersion, hv,
        typeofObject]
  · intro v hv hlt
    have hvne : v ≠ "" := by
      intro hveq
      subst hveq
      simp only [matchCouchVersion] at hv
      split at hv
      · split at hv
        · exact Option.noConfusion hv
        · next hne => exact hne (congrArg String.data (Option.some.inj hv))
      · exact Option.noConfusion hv
    cases mq <;> simp [typeofObject] at hmq <;>
      simp [NodeCouchDB.mango, requestWrapped, ht, hserver, checkServerVersion, hv,
        hvne, hlt, typeofObject]

/-- Witness for C6: against a server identifying as nginx a 404 mango
response fails with ESERVERNOTSUPPORTED (not with the 404 mapping), and
against CouchDB/1.6.1 it fails with ESERVEROLD. -/
theorem c6_witness :
    (NodeCouchDB.mango "http://127.0.0.1:5984" none
        (fun _ => .ok { statusCode := 404, headers := [("server", "nginx")] })
        (fun _ => none) "db" (Json.obj [("selector", Json.obj [])]) []).result
      = .error (.reqError "ESERVERNOTSUPPORTED" none) ∧
    (NodeCouchDB.mango "http://127.0.0.1:5984" none
        (fun _ => .ok { statusCode := 404, headers := [("server", "CouchDB/1.6.1")] })
        (fun _ => none) "db" (Json.obj [("selector", Json.obj [])]) []).result
      = .error (.reqError "ESERVEROLD" none) :=
  ⟨(c6_mango_server_version_guard "http://127.0.0.1:5984" "db" none
      (fun _ => .ok { statusCode := 404, headers := [("server", "nginx")] })
      (fun _ => none) (Json.obj [("selector", Json.obj [])]) []
      { statusCode := 404, headers := [("server", "nginx")] } "nginx"
      rfl (fun _ => rfl) rfl).1 rfl,
   (c6_mango_server_version_guard "http://127.0.0.1:5984" "db" none
      (fun _ => .ok { statusCode := 404, headers := [("server", "CouchDB/1.6.1")] })
      (fun _ => none) (Json.obj [("selector", Json.obj [])]) []
      { statusCode := 404, headers := [("server", "CouchDB/1.6.1")] } "CouchDB/1.6.1"
      rfl (fun _ => rfl) rfl).2 "1" (by decide) (by decide)⟩

/-- C7: get and mango hand the dispatcher exactly the encoded query: a
parameter named key, keys, startkey or endkey is JSON-stringified, every
other parameter passes through unchanged; and the spec's distinguishing
wire example holds: startkey ["Ann"] goes out percent-encoded as JSON
(startkey=%5B%22Ann%22%5D), where the bare string would have gone out as
startkey=Ann. -/
theorem c7_query_parameter_encoding
    (baseUrl dbName uri : String) (cache : Option CacheStore) (t : Transport)
    (jsonParse : String → Option Json) (mq : Json)
    (query rest : List (String × Json)) (k : String) (v : Json)
    (hmq : typeofObject mq = true) :
    ((NodeCouchDB.get baseUrl cache t dbName uri query).requested.map RequestOpts.qs
        = some (encodeQuery query)) ∧
    ((NodeCouchDB.mango baseUrl cache t jsonParse dbName mq query).requested.map
        RequestOpts.qs = some (encodeQuery query)) ∧
    (k ∈ KEYS_TO_ENCODE →
        encodeQuery ((k, v) :: rest)
          = (k, Json.str (jsonStringify v)) :: encodeQuery rest) ∧
    (k ∉ KEYS_TO_ENCODE →
        encodeQuery ((k, v) :: rest) = (k, v) :: encodeQuery rest) ∧
    qsStringify (encodeQuery [("startkey", Json.arr [Json.str "Ann"])])
      = "startkey=%5B%22Ann%22%5D" ∧
    qsStringify [("startkey", Json.str "Ann")] = "startkey=Ann" := by
  refine ⟨?_, ?_, ?_, ?_, by decide, by decide⟩
  · simp only [NodeCouchDB.get]
    repeat' split
    all_goals simp [requestWrapped_sentOpts_qs]
  · cases mq <;> simp [typeofObject] at hmq <;>
      · simp only [NodeCouchDB.mango, typeofObject, Bool.not_true, Bool.not_false]
        repeat' split
        all_goals simp_all [requestWrapped_sentOpts_qs]
  · intro hk
    simp [encodeQuery, hk]
  · intro hk
    simp [encodeQuery, hk]

/-- Witness for C7: with the concrete query of the spec's example the
request the dispatcher receives carries the JSON-encoded startkey. -/
theorem c7_witness :
    ((NodeCouchDB.get "http://127.0.0.1:5984" none
        (fun _ => .ok { statusCode := 200 }) "db" "_design/v/_view/x"
        [("startkey", Json.arr [Json.str "Ann"])]).requested.map RequestOpts.qs
      = some (encodeQuery [("startkey", Json.arr [Json.str "Ann"])])) ∧
    qsStringify (encodeQuery [("startkey", Json.arr [Json.str "Ann"])])
      = "startkey=%5B%22Ann%22%5D" :=
  ⟨(c7_query_parameter_encoding "http://127.0.0.1:5984" "db" "_design/v/_view/x" none
      (fun _ => .ok { statusCode := 200 }) (fun _ => none) (Json.obj [])
      [("startkey", Json.arr [Json.str "Ann"])] [] "startkey" Json.null rfl).1,
   (c7_query_parameter_encoding "http://127.0.0.1:5984" "db" "_design/v/_view/x" none
      (fun _ => .ok { statusCode := 200 }) (fun _ => none) (Json.obj [])
      [("startkey", Json.arr [Json.str "Ann"])] [] "startkey" Json.null rfl).2.2.2.2.1⟩
